import Mathlib

/-!
Shallow embedding of the Slack refund bot (src/app.py), covering the
`/refund` slash-command handler (`refund_command`, lines 71-251) and the
`refund_modal` view-submission handler (`handle_refund_submission`,
lines 393-502), together with the Python string/number primitives they
use. Handlers are modelled as functions from the inbound payload plus the
results of the external Stripe calls (supplied as oracles) to the ordered
list of side effects they perform, paired with an optional uncaught
exception escaping the handler.
-/

namespace SlackBot

/-- A Stripe refund object as consumed by the formatting code: the fields
`id`, `amount` (minor units), `currency`, `status`, `created` read by the
handlers. -/
structure Refund where
  id : String
  amount : Nat
  currency : String
  status : String
  created : Nat
deriving Repr, DecidableEq

/-- Python exceptions distinguished by the except chains of the handlers:
`stripe.error.InvalidRequestError` (a subclass of `StripeError`), any other
`stripe.error.StripeError`, `ValueError` (raised by `int(...)`), `KeyError`
(raised by subscripting a missing payload key), and anything else. The
payload is `str(e)`. -/
inductive Exc where
  | invalidRequestError (msg : String)
  | stripeError (msg : String)
  | valueError (msg : String)
  | keyError (msg : String)
  | otherExc (msg : String)
deriving Repr, DecidableEq

/-- `str(e)` of an exception. -/
def Exc.msg : Exc → String
  | .invalidRequestError m => m
  | .stripeError m => m
  | .valueError m => m
  | .keyError m => m
  | .otherExc m => m

/-- Boolean list-prefix test. -/
def charsPrefixOf : List Char → List Char → Bool
  | [], _ => true
  | _ :: _, [] => false
  | a :: as, b :: bs => a = b && charsPrefixOf as bs

/-- Boolean list-infix test: the pattern occurs at some position. -/
def charsInfixOf (pat : List Char) : List Char → Bool
  | [] => charsPrefixOf pat []
  | c :: cs => charsPrefixOf pat (c :: cs) || charsInfixOf pat cs

/-- Python `pat in s` substring test. -/
def strContains (s pat : String) : Bool :=
  charsInfixOf pat.data s.data

/-- Whitespace characters removed by Python `str.strip()` (ASCII range). -/
def isPySpace (c : Char) : Bool :=
  c = ' ' || c = '\t' || c = '\n' || c = '\r' || c = '\x0b' || c = '\x0c'

/-- Drop leading whitespace from a character list. -/
def dropSpaces : List Char → List Char
  | [] => []
  | c :: cs => if isPySpace c then dropSpaces cs else c :: cs

/-- Python `str.strip()`: remove leading and trailing whitespace. -/
def pyStrip (s : String) : String :=
  ⟨(dropSpaces (dropSpaces s.data).reverse).reverse⟩

/-- Python `str.upper()` for ASCII text. -/
def pyUpper (s : String) : String :=
  ⟨s.data.map Char.toUpper⟩

/-- Python `str.startswith(pat)`. -/
def strStartsWith (s pat : String) : Bool :=
  charsPrefixOf pat.data s.data

/-- Helper for `pyTitle`: the boolean records whether the previous character
was alphabetic. -/
def pyTitleGo : Bool → List Char → List Char
  | _, [] => []
  | prevAlpha, c :: cs =>
    if c.isAlpha then
      (if prevAlpha then c.toLower else c.toUpper) :: pyTitleGo true cs
    else
      c :: pyTitleGo false cs

/-- Python `str.title()` for ASCII text: each alphabetic character starting a
run is uppercased, the rest of the run lowercased. -/
def pyTitle (s : String) : String :=
  ⟨pyTitleGo false s.data⟩

/-- Digit-run tail of the Python integer-literal grammar: after the leading
digit, digits optionally separated by single underscores. -/
def digitsRest : List Char → Bool
  | [] => true
  | '_' :: c :: cs => c.isDigit && digitsRest cs
  | ['_'] => false
  | c :: cs => c.isDigit && digitsRest cs

/-- Value of a digit list (underscores removed beforehand). -/
def digitsVal (cs : List Char) : Nat :=
  cs.foldl (fun a c => 10 * a + (c.toNat - 48)) 0

/-- Parse an unsigned decimal literal as Python `int` does: non-empty,
leading digit, single underscores allowed between digits. -/
def pyIntCore (cs : List Char) : Option Nat :=
  match cs with
  | [] => none
  | c :: rest =>
    if c.isDigit && digitsRest rest then
      some (digitsVal (cs.filter (fun d => d ≠ '_')))
    else
      none

/-- Python `int(s)` on a string: strips whitespace, optional sign, decimal
digits (with single internal underscores); otherwise raises `ValueError`
naming the offending literal in the message (CPython also wraps the
literal in quotes, elided here). -/
def pyInt (s : String) : Except Exc Int :=
  let t := pyStrip s
  let signed : Bool × List Char :=
    match t.data with
    | '-' :: rest => (true, rest)
    | '+' :: rest => (false, rest)
    | cs => (false, cs)
  match pyIntCore signed.2 with
  | some n => .ok (if signed.1 then -(n : Int) else (n : Int))
  | none => .error (.valueError ("invalid literal for int() with base 10: " ++ s))

/-- The `response_type` of a `respond(...)` payload: `"ephemeral"` (visible
to the requester only) or `"in_channel"` (channel-wide). -/
inductive RespType where
  | ephemeral
  | inChannel
deriving Repr, DecidableEq

/-- A `respond(...)` payload: response type, the `replace_original` flag
(absent means false), and the mrkdwn texts of its blocks in order. -/
structure SlackResponse where
  response_type : RespType
  replace_original : Bool
  blocks : List String
deriving Repr, DecidableEq

/-- The externally visible actions a handler performs, in order: Slack
`ack()`, `respond(...)`, Stripe `Charge.retrieve`, `Refund.create` (by
charge or by payment intent, with the arguments the source passes), and
Slack `chat_postMessage`. -/
inductive Effect where
  | ack
  | respond (r : SlackResponse)
  | chargeRetrieve (chargeId : String)
  | refundCreateCharge (chargeId reason slackUserId slackChannelId : String)
  | refundCreatePI (paymentIntent : String) (amount : Int)
      (reason slackUserId metaReason : String)
  | postMessage (channel text : String) (blocks : List String)
deriving Repr, DecidableEq

/-- `f"{x:.2f}"` applied to `refund.amount / 100` for a minor-unit amount
`n : Nat`: the quotient, a dot, and the remainder zero-padded to two
digits. (Python computes `n / 100` in floating point and rounds to two
places; for amounts in the Stripe range the double is within 2^-40 of the
exact quotient, so the rounded rendering coincides with this exact one.) -/
def pad2 (m : Nat) : String :=
  if m < 10 then "0" ++ Nat.repr m else Nat.repr m

/-- Decimal rendering of a minor-unit amount, see `pad2`. -/
def fmt2 (n : Nat) : String :=
  Nat.repr (n / 100) ++ "." ++ pad2 (n % 100)

/-- The `/refund` command payload: the handler reads `text` with a `.get`
defaulting to the empty string (so a missing `text` key yields the empty
string rather than an error), while `user_id` and `channel_id` are read by
plain subscripting, which raises `KeyError` when the key is absent. -/
structure SlashCommand where
  text : Option String
  user_id : Option String
  channel_id : Option String
deriving Repr, DecidableEq

/-- app.py line 87: reply to an empty `/refund`. -/
def usageText : String :=
  "❌ Please provide a charge ID.\n\nUsage: `/refund ch_xxxxxxxxxxxxx`"

/-- app.py line 102: reply to a charge id not starting with `ch_`. -/
def badFormatText : String :=
  "❌ Invalid charge ID format. Charge IDs must start with `ch_`.\n\nUsage: `/refund ch_xxxxxxxxxxxxx`"

/-- app.py line 117: the placeholder posted before calling Stripe. -/
def processingText : String :=
  "⏳ Processing refund..."

/-- app.py line 187: the context line of the command-flow receipt. -/
def testModeBanner : String :=
  "🧪 *TEST MODE* - Refund will appear on the original payment method within 5-10 business days."

/-- app.py lines 200-251: the error text chosen by the except chain of the
`/refund` handler for exception `e`. -/
def cmdErrorText (chargeId : String) (e : Exc) : String :=
  match e with
  | .invalidRequestError m =>
    if strContains m "No such charge" then
      "❌ Charge ID `" ++ chargeId ++ "` not found. Please verify the charge ID is correct."
    else if strContains m "already been refunded" then
      "❌ This charge has already been fully refunded."
    else
      "❌ Invalid request: " ++ m
  | .stripeError m => "❌ Stripe error: " ++ m
  | .valueError m => "❌ An error occurred while processing the refund: " ++ m
  | .keyError m => "❌ An error occurred while processing the refund: " ++ m
  | .otherExc m => "❌ An error occurred while processing the refund: " ++ m

/-- app.py lines 142-191: the block texts of the command-flow success
receipt, in order. The handler never consults the configured processor
credential (`stripe.api_key`, set once at line 20) when formatting: the
`stripeApiKey` parameter records the credential in scope and is unused. -/
def cmdReceiptBlocks (stripeApiKey : String) (chargeId : String) (r : Refund) : List String :=
  ["💰 Refund Receipt",
   "*Refund ID:*\n" ++ r.id,
   "*Amount:*\n$" ++ fmt2 r.amount ++ " " ++ pyUpper r.currency,
   "*Status:*\n" ++ pyUpper r.status,
   "*Original Charge:*\n" ++ chargeId,
   "*Reason:*\nRequested by customer",
   "*Timestamp:*\n<!date^" ++ Nat.repr r.created ++ "^\x7bdate_short\x7d \x7btime\x7d|" ++ Nat.repr r.created ++ ">",
   testModeBanner]

/-- app.py lines 71-251: the `/refund` slash-command handler.
`retrieveResult` and `createResult` are the outcomes of the two Stripe
calls (the charge object itself is never read, only whether the call
succeeded).
Returns the ordered effect trace and an uncaught exception when one
escapes the handler. -/
def refund_command (stripeApiKey : String) (command : SlashCommand)
    (retrieveResult : Except Exc Unit) (createResult : Except Exc Refund) :
    List Effect × Option Exc :=
  let charge_id := pyStrip (command.text.getD "")
  if charge_id = "" then
    ([.ack, .respond ⟨.ephemeral, false, [usageText]⟩], none)
  else if !(strStartsWith charge_id "ch_") then
    ([.ack, .respond ⟨.ephemeral, false, [badFormatText]⟩], none)
  else
    let pre : List Effect :=
      [.ack, .respond ⟨.inChannel, false, [processingText]⟩, .chargeRetrieve charge_id]
    match retrieveResult with
    | .error e => (pre ++ [.respond ⟨.ephemeral, true, [cmdErrorText charge_id e]⟩], none)
    | .ok _ =>
      match command.user_id with
      | none =>
        (pre ++ [.respond ⟨.ephemeral, true, [cmdErrorText charge_id (.keyError "user_id")]⟩], none)
      | some uid =>
        match command.channel_id with
        | none =>
          (pre ++ [.respond ⟨.ephemeral, true, [cmdErrorText charge_id (.keyError "channel_id")]⟩], none)
        | some cid =>
          let pre2 := pre ++ [Effect.refundCreateCharge charge_id "requested_by_customer" uid cid]
          match createResult with
          | .error e =>
            (pre2 ++ [.respond ⟨.ephemeral, true, [cmdErrorText charge_id e]⟩], none)
          | .ok r =>
            (pre2 ++ [.respond ⟨.inChannel, true, cmdReceiptBlocks stripeApiKey charge_id r⟩], none)

/-- The `refund_modal` view-submission payload: `body["user"]["id"]`,
`body.get("channel")["id"]` (`none` when the `channel` key is absent — the
source guards with `body.get`), and the three input values read from
`view["state"]["values"]`. A `none` in a field read by plain subscripting
means the lookup raises `KeyError`. -/
structure ModalSubmission where
  userId : Option String
  channelId : Option String
  paymentIntentId : Option String
  amount : Option String
  reason : Option String
deriving Repr, DecidableEq

/-- app.py lines 489-502: the error text chosen by the except chain of the
modal handler: one branch for every `stripe.error.StripeError`
(`InvalidRequestError` included), one for everything else. -/
def modalErrorText (e : Exc) : String :=
  match e with
  | .invalidRequestError m => "❌ Refund failed: " ++ m
  | .stripeError m => "❌ Refund failed: " ++ m
  | .valueError m => "❌ An error occurred while processing the refund: " ++ m
  | .keyError m => "❌ An error occurred while processing the refund: " ++ m
  | .otherExc m => "❌ An error occurred while processing the refund: " ++ m

/-- app.py lines 419-464: the block texts of the modal-flow success receipt,
in order. As in `cmdReceiptBlocks`, `stripeApiKey` records the configured
credential, which the formatting never consults. -/
def modalReceiptBlocks (stripeApiKey : String) (paymentIntentId reason : String) (r : Refund) : List String :=
  ["✅ *Refund Processed Successfully*",
   "*Refund ID:*\n" ++ r.id,
   "*Amount:*\n$" ++ fmt2 r.amount,
   "*Status:*\n" ++ pyTitle r.status,
   "*Payment Intent:*\n" ++ paymentIntentId,
   "*Reason:* " ++ reason,
   "Refund will appear on your original payment method within 5-10 business days."]

/-- app.py lines 393-502: the `refund_modal` submission handler. Field
extraction (lines 398-401) happens before the `try` block, so a missing
field raises a `KeyError` that escapes the handler; `int(amount)` is
evaluated as an argument of `stripe.Refund.create`, hence before the
network call, inside the `try`. -/
def handle_refund_submission (stripeApiKey : String) (body : ModalSubmission)
    (createResult : Except Exc Refund) : List Effect × Option Exc :=
  match body.userId with
  | none => ([.ack], some (.keyError "user"))
  | some uid =>
    match body.paymentIntentId with
    | none => ([.ack], some (.keyError "payment_intent_input"))
    | some pi =>
      match body.amount with
      | none => ([.ack], some (.keyError "amount_input"))
      | some amtStr =>
        match body.reason with
        | none => ([.ack], some (.keyError "reason_input"))
        | some reason =>
          match pyInt amtStr with
          | .error e => ([.ack, .postMessage uid (modalErrorText e) []], none)
          | .ok amt =>
            let pre : List Effect :=
              [.ack, .refundCreatePI pi amt "requested_by_customer" uid reason]
            match createResult with
            | .error e => (pre ++ [.postMessage uid (modalErrorText e) []], none)
            | .ok r =>
              let dm := Effect.postMessage uid ("Refund processed: $" ++ fmt2 r.amount)
                (modalReceiptBlocks stripeApiKey pi reason r)
              match body.channelId with
              | some ch =>
                (pre ++ [dm,
                  .postMessage ch
                    ("Refund of $" ++ fmt2 r.amount ++ " has been processed for <@" ++ uid ++ ">")
                    ["✅ Refund of *$" ++ fmt2 r.amount ++ "* processed for <@" ++ uid ++ ">"]], none)
              | none => (pre ++ [dm], none)

/-- The error taxonomy of the spec (section 7). -/
inductive Category where
  | notFound
  | alreadyRefunded
  | invalidRequest
  | processorError
  | internalError
deriving Repr, DecidableEq

/-- Which taxonomy category the except chain of the `/refund` handler
(app.py lines 200-251) assigns to an exception: named after the branch
that renders it. -/
def cmdCategory (e : Exc) : Category :=
  match e with
  | .invalidRequestError m =>
    if strContains m "No such charge" then .notFound
    else if strContains m "already been refunded" then .alreadyRefunded
    else .invalidRequest
  | .stripeError _ => .processorError
  | .valueError _ => .internalError
  | .keyError _ => .internalError
  | .otherExc _ => .internalError

/-- Which taxonomy category the except chain of the modal handler (app.py
lines 489-502) assigns: every `StripeError` takes the single passthrough
branch, everything else the generic one. -/
def modalCategory (e : Exc) : Category :=
  match e with
  | .invalidRequestError _ => .processorError
  | .stripeError _ => .processorError
  | .valueError _ => .internalError
  | .keyError _ => .internalError
  | .otherExc _ => .internalError

/-- The charge-id pattern of the spec, `^ch_.+` (the literal prefix `ch_`
followed by at least one further character), as a decidable predicate on
the trimmed id. Stated from the spec for comparison with the weaker
`String.startsWith` check the source performs. -/
def matchesChargePattern (s : String) : Bool :=
  strStartsWith s "ch_" && s.length > 3

/-- C1: the claim fails on the code. The modal handler performs no amount
validation: the string `0` parses as the integer 0, which is not positive,
yet the handler still issues the `Refund.create` call to the processor
(and reports the processor rejection, not an `InvalidInput` outcome). -/
theorem C1_counterexample :
    (handle_refund_submission "sk_test_k"
        ⟨some "U1", none, some "pi_1", some "0", some "why"⟩
        (.error (.invalidRequestError "Amount must be positive"))).1 =
      [.ack, .refundCreatePI "pi_1" 0 "requested_by_customer" "U1" "why",
       .postMessage "U1" "❌ Refund failed: Amount must be positive" []] := rfl

/-- C1 (amended): an amount string that does not parse as a Python integer
makes `int(amount)` raise before the processor call, and the handler
reports a generic error privately (not an `InvalidInput` outcome); any
amount string that parses as an integer — positive or not — leads to a
`Refund.create` call being issued as the second effect. -/
theorem C1_amended_thm (key uid pi amt rsn : String) (ch : Option String)
    (cr : Except Exc Refund) :
    (∀ em, pyInt amt = .error (.valueError em) →
      handle_refund_submission key ⟨some uid, ch, some pi, some amt, some rsn⟩ cr =
        ([.ack, .postMessage uid ("❌ An error occurred while processing the refund: " ++ em) []],
         none)) ∧
    (∀ n : Int, pyInt amt = .ok n →
      (handle_refund_submission key ⟨some uid, ch, some pi, some amt, some rsn⟩ cr).1.get? 1 =
        some (.refundCreatePI pi n "requested_by_customer" uid rsn)) := by
  constructor
  · intro em h
    simp [handle_refund_submission, h, modalErrorText]
  · intro n h
    cases cr with
    | error e => simp [handle_refund_submission, h]
    | ok r =>
      cases ch with
      | none => simp [handle_refund_submission, h]
      | some c => simp [handle_refund_submission, h]

/-- C1 witness: concrete runs discharging both hypotheses of the amended
theorem, at the non-numeric amount `abc` and the parseable amount `0`. -/
theorem C1_amended_witness :
    handle_refund_submission "sk" ⟨some "U1", none, some "pi_1", some "abc", some "r"⟩
        (.ok ⟨"re_1", 1999, "usd", "succeeded", 0⟩) =
      ([.ack,
        .postMessage "U1"
          ("❌ An error occurred while processing the refund: " ++
            "invalid literal for int() with base 10: abc") []],
       none) ∧
    (handle_refund_submission "sk" ⟨some "U1", none, some "pi_1", some "0", some "r"⟩
        (.ok ⟨"re_1", 1999, "usd", "succeeded", 0⟩)).1.get? 1 =
      some (.refundCreatePI "pi_1" 0 "requested_by_customer" "U1" "r") :=
  ⟨(C1_amended_thm "sk" "U1" "pi_1" "abc" "r" none
      (.ok ⟨"re_1", 1999, "usd", "succeeded", 0⟩)).1
      "invalid literal for int() with base 10: abc" rfl,
   (C1_amended_thm "sk" "U1" "pi_1" "0" "r" none
      (.ok ⟨"re_1", 1999, "usd", "succeeded", 0⟩)).2 0 rfl⟩

/-- C2: the claim fails on the code. The trimmed input `ch_` does not match
`^ch_.+` (nothing follows the prefix), yet the handler accepts it — its
check is only `startswith` — and issues the `Charge.retrieve` call to the
processor instead of replying with an invalid-input message. -/
theorem C2_counterexample :
    matchesChargePattern "ch_" = false ∧
    (refund_command "sk" ⟨some "ch_", some "U", some "C"⟩
        (.error (.invalidRequestError "No such charge: ch_"))
        (.ok ⟨"re_1", 1, "usd", "succeeded", 0⟩)).1 =
      [.ack, .respond ⟨.inChannel, false, [processingText]⟩, .chargeRetrieve "ch_",
       .respond ⟨.ephemeral, true,
         ["❌ Charge ID `ch_` not found. Please verify the charge ID is correct."]⟩] :=
  ⟨rfl, rfl⟩

/-- C2 (amended): for every chargeId that after trimming is empty or does
not start with `ch_`, the handler replies with a private (ephemeral)
invalid-input message — the usage string for empty input — and performs no
processor call; an id that merely starts with `ch_` (such as the bare
prefix) is accepted. -/
theorem C2_amended_thm (key txt : String) (uid cid : Option String)
    (rr : Except Exc Unit) (cr : Except Exc Refund) :
    (pyStrip txt = "" →
      refund_command key ⟨some txt, uid, cid⟩ rr cr =
        ([.ack, .respond ⟨.ephemeral, false, [usageText]⟩], none) ∧
      strContains usageText "/refund ch_xxxxxxxxxxxxx" = true) ∧
    (pyStrip txt ≠ "" → strStartsWith (pyStrip txt) "ch_" = false →
      refund_command key ⟨some txt, uid, cid⟩ rr cr =
        ([.ack, .respond ⟨.ephemeral, false, [badFormatText]⟩], none)) := by
  constructor
  · intro h
    refine ⟨?_, by decide⟩
    simp [refund_command, h]
  · intro h1 h2
    simp [refund_command, h1, h2]

/-- C2 witness: concrete runs discharging the hypotheses of the amended
theorem at the empty input and at a non-`ch_` input. -/
theorem C2_amended_witness :
    (refund_command "sk" ⟨some "", some "U", some "C"⟩ (.ok ())
        (.ok ⟨"re_1", 1, "usd", "succeeded", 0⟩) =
      ([.ack, .respond ⟨.ephemeral, false, [usageText]⟩], none)) ∧
    (refund_command "sk" ⟨some "pi_123", some "U", some "C"⟩ (.ok ())
        (.ok ⟨"re_1", 1, "usd", "succeeded", 0⟩) =
      ([.ack, .respond ⟨.ephemeral, false, [badFormatText]⟩], none)) :=
  ⟨((C2_amended_thm "sk" "" (some "U") (some "C") (.ok ())
      (.ok ⟨"re_1", 1, "usd", "succeeded", 0⟩)).1 rfl).1,
   (C2_amended_thm "sk" "pi_123" (some "U") (some "C") (.ok ())
      (.ok ⟨"re_1", 1, "usd", "succeeded", 0⟩)).2 (by decide) rfl⟩

/-- C3: the claim fails on the code in the modal flow. A processor error
whose message contains the text No such charge is rendered by the modal
handler through its single StripeError branch as a passthrough
(ProcessorError) message, not through a NotFound rendering as the
slash-command flow does for the same error. -/
theorem C3_counterexample :
    strContains "No such charge: pi_1" "No such charge" = true ∧
    modalCategory (.invalidRequestError "No such charge: pi_1") = .processorError ∧
    modalCategory (.invalidRequestError "No such charge: pi_1") ≠ .notFound ∧
    cmdCategory (.invalidRequestError "No such charge: pi_1") = .notFound ∧
    (handle_refund_submission "sk" ⟨some "U1", none, some "pi_1", some "25", some "r"⟩
        (.error (.invalidRequestError "No such charge: pi_1"))).1 =
      [.ack, .refundCreatePI "pi_1" 25 "requested_by_customer" "U1" "r",
       .postMessage "U1" "❌ Refund failed: No such charge: pi_1" []] := by
  refine ⟨rfl, rfl, by decide, rfl, rfl⟩

/-- C3 (amended): the slash-command flow maps processor errors exactly as
the claim states (message containing No such charge gives NotFound, one
containing already been refunded gives AlreadyRefunded, other
invalid-request errors give InvalidRequest with passthrough, other
processor-side errors give ProcessorError with passthrough, anything else
gives InternalError); the modal flow instead maps every processor error —
not-found and already-refunded included — to a single ProcessorError
passthrough message and any other exception to InternalError. -/
theorem C3_amended_thm (cid m : String) :
    (strContains m "No such charge" = true →
      cmdCategory (.invalidRequestError m) = .notFound) ∧
    (strContains m "No such charge" = false →
      strContains m "already been refunded" = true →
      cmdCategory (.invalidRequestError m) = .alreadyRefunded) ∧
    (strContains m "No such charge" = false →
      strContains m "already been refunded" = false →
      cmdCategory (.invalidRequestError m) = .invalidRequest ∧
      cmdErrorText cid (.invalidRequestError m) = "❌ Invalid request: " ++ m) ∧
    (cmdCategory (.stripeError m) = .processorError ∧
      cmdErrorText cid (.stripeError m) = "❌ Stripe error: " ++ m) ∧
    (cmdCategory (.otherExc m) = .internalError ∧
      cmdErrorText cid (.otherExc m) =
        "❌ An error occurred while processing the refund: " ++ m) ∧
    (modalCategory (.invalidRequestError m) = .processorError ∧
      modalErrorText (.invalidRequestError m) = "❌ Refund failed: " ++ m) ∧
    (modalCategory (.stripeError m) = .processorError ∧
      modalErrorText (.stripeError m) = "❌ Refund failed: " ++ m) ∧
    (modalCategory (.otherExc m) = .internalError ∧
      modalErrorText (.otherExc m) =
        "❌ An error occurred while processing the refund: " ++ m) := by
  refine ⟨?_, ?_, ?_, ⟨rfl, rfl⟩, ⟨rfl, rfl⟩, ⟨rfl, rfl⟩, ⟨rfl, rfl⟩, ⟨rfl, rfl⟩⟩
  · intro h
    simp [cmdCategory, h]
  · intro h1 h2
    simp [cmdCategory, h1, h2]
  · intro h1 h2
    refine ⟨by simp [cmdCategory, h1, h2], by simp [cmdErrorText, h1, h2]⟩

/-- C3 witness: the amended mapping evaluated at concrete messages from
each branch. -/
theorem C3_amended_witness :
    cmdCategory (.invalidRequestError "No such charge: ch_9") = .notFound ∧
    cmdCategory (.invalidRequestError "This charge has already been refunded.") = .alreadyRefunded ∧
    cmdCategory (.invalidRequestError "Missing required param.") = .invalidRequest ∧
    cmdErrorText "ch_9" (.invalidRequestError "Missing required param.") =
      "❌ Invalid request: " ++ "Missing required param." :=
  ⟨(C3_amended_thm "ch_9" "No such charge: ch_9").1 (by decide),
   (C3_amended_thm "ch_9" "This charge has already been refunded.").2.1 (by decide) (by decide),
   ((C3_amended_thm "ch_9" "Missing required param.").2.2.1 (by decide) (by decide)).1,
   ((C3_amended_thm "ch_9" "Missing required param.").2.2.1 (by decide) (by decide)).2⟩

/-- Helper: every channel-wide (`in_channel`) response the `/refund`
handler ever emits is either the processing placeholder or the success
receipt of a run in which both Stripe calls succeeded. -/
theorem cmd_inChannel_blocks (key txt : String) (uid cid : Option String)
    (rr : Except Exc Unit) (cr : Except Exc Refund) (resp : SlackResponse)
    (hm : Effect.respond resp ∈ (refund_command key ⟨some txt, uid, cid⟩ rr cr).1)
    (hic : resp.response_type = .inChannel) :
    resp.blocks = [processingText] ∨
      ∃ r u c, rr = .ok () ∧ cr = .ok r ∧ uid = some u ∧ cid = some c ∧
        resp.blocks = cmdReceiptBlocks key (pyStrip txt) r := by
  by_cases h0 : pyStrip txt = ""
  · simp [refund_command, h0] at hm
    rw [hm] at hic
    exact absurd hic (by simp)
  · by_cases h1 : strStartsWith (pyStrip txt) "ch_"
    · rcases rr with e1 | u1
      · simp [refund_command, h0, h1] at hm
        rcases hm with hm | hm
        · left; rw [hm]
        · rw [hm] at hic
          exact absurd hic (by simp)
      · rcases uid with _ | u
        · simp [refund_command, h0, h1] at hm
          rcases hm with hm | hm
          · left; rw [hm]
          · rw [hm] at hic
            exact absurd hic (by simp)
        · rcases cid with _ | c
          · simp [refund_command, h0, h1] at hm
            rcases hm with hm | hm
            · left; rw [hm]
            · rw [hm] at hic
              exact absurd hic (by simp)
          · rcases cr with e2 | r
            · simp [refund_command, h0, h1] at hm
              rcases hm with hm | hm
              · left; rw [hm]
              · rw [hm] at hic
                exact absurd hic (by simp)
            · simp [refund_command, h0, h1] at hm
              rcases hm with hm | hm
              · left; rw [hm]
              · right
                exact ⟨r, u, c, rfl, rfl, rfl, rfl, by rw [hm]⟩
    · simp [refund_command, h0, h1] at hm
      rw [hm] at hic
      exact absurd hic (by simp)

/-- C4: every failure message is delivered privately to the requester and
never channel-wide, in both flows: validation failures of the slash
command are ephemeral-only responses; in any slash-command run where a
Stripe call failed, the only channel-wide response is the processing
placeholder (so the error text is ephemeral); and every message the modal
handler posts in a failing run is a direct message to the requester. -/
theorem C4_thm (key txt uid2 pi amt rsn : String) (uid cid : Option String)
    (ch : Option String) (e : Exc) (rr : Except Exc Unit) (cr : Except Exc Refund) :
    ((pyStrip txt = "" ∨ strStartsWith (pyStrip txt) "ch_" = false) →
      ∀ resp : SlackResponse,
        Effect.respond resp ∈ (refund_command key ⟨some txt, uid, cid⟩ rr cr).1 →
        resp.response_type = .ephemeral) ∧
    ((rr = .error e ∨ cr = .error e) →
      ∀ resp : SlackResponse,
        Effect.respond resp ∈ (refund_command key ⟨some txt, uid, cid⟩ rr cr).1 →
        resp.response_type = .inChannel → resp.blocks = [processingText]) ∧
    (((pyInt amt).isOk = false ∨ cr = .error e) →
      ∀ c t bs,
        Effect.postMessage c t bs ∈
          (handle_refund_submission key ⟨some uid2, ch, some pi, some amt, some rsn⟩ cr).1 →
        c = uid2) := by
  refine ⟨?_, ?_, ?_⟩
  · rintro (h | h) resp hm
    · simp [refund_command, h] at hm
      rw [hm]
    · by_cases h0 : pyStrip txt = ""
      · simp [refund_command, h0] at hm
        rw [hm]
      · simp [refund_command, h0, h] at hm
        rw [hm]
  · intro hfail resp hm hic
    rcases cmd_inChannel_blocks key txt uid cid rr cr resp hm hic with h | ⟨r, u, c, hrr, hcr, _, _, _⟩
    · exact h
    · rcases hfail with hf | hf
      · rw [hf] at hrr
        exact absurd hrr (by simp)
      · rw [hf] at hcr
        exact absurd hcr (by simp)
  · rintro hfail c t bs hm
    rcases hq : pyInt amt with e1 | n
    · simp [handle_refund_submission, hq] at hm
      exact hm.1
    · rcases hfail with hf | hf
      · rw [hq] at hf
        simp [Except.isOk, Except.toBool] at hf
      · subst hf
        simp [handle_refund_submission, hq] at hm
        exact hm.1

/-- C4 witness: the theorem applied at concrete failing runs — the empty
`/refund` input (validation failure), a failed retrieve, and a modal run
with a rejected processor call. -/
theorem C4_witness :
    SlackResponse.response_type ⟨.ephemeral, false, [usageText]⟩ = .ephemeral ∧
    SlackResponse.blocks ⟨.inChannel, false, [processingText]⟩ = [processingText] ∧
    ("U1" : String) = "U1" :=
  ⟨(C4_thm "sk" "" "U1" "pi_1" "25" "r" (some "U") (some "C") none
      (.stripeError "boom") (.error (.stripeError "boom"))
      (.ok ⟨"re_1", 1, "usd", "succeeded", 0⟩)).1 (Or.inl rfl)
      ⟨.ephemeral, false, [usageText]⟩ (by decide),
   (C4_thm "sk" "ch_1" "U1" "pi_1" "25" "r" (some "U") (some "C") none
      (.stripeError "boom") (.error (.stripeError "boom"))
      (.ok ⟨"re_1", 1, "usd", "succeeded", 0⟩)).2.1 (Or.inl rfl)
      ⟨.inChannel, false, [processingText]⟩ (by decide) rfl,
   (C4_thm "sk" "ch_1" "U1" "pi_1" "25" "r" (some "U") (some "C") none
      (.stripeError "boom") (.ok ()) (.error (.stripeError "boom"))).2.2 (Or.inr rfl)
      "U1" "❌ Refund failed: boom" [] (by decide)⟩

/-- C5: the channel-wide announcement of a successful modal refund depends
only on the requester and the refund amount: two successful runs that
differ only in the submitted payment-intent id and refund reason produce
the identical final channel message, and that message consists of the
requester mention and the formatted amount only. -/
theorem C5_thm (key uid ch pi1 pi2 rsn1 rsn2 amt : String) (n : Int) (r1 r2 : Refund)
    (hamt : pyInt amt = .ok n) (hA : r1.amount = r2.amount) :
    (handle_refund_submission key ⟨some uid, some ch, some pi1, some amt, some rsn1⟩
        (.ok r1)).1.get? 3 =
      (handle_refund_submission key ⟨some uid, some ch, some pi2, some amt, some rsn2⟩
        (.ok r2)).1.get? 3 ∧
    (handle_refund_submission key ⟨some uid, some ch, some pi1, some amt, some rsn1⟩
        (.ok r1)).1.get? 3 =
      some (.postMessage ch
        ("Refund of $" ++ fmt2 r1.amount ++ " has been processed for <@" ++ uid ++ ">")
        ["✅ Refund of *$" ++ fmt2 r1.amount ++ "* processed for <@" ++ uid ++ ">"]) := by
  constructor
  · simp [handle_refund_submission, hamt, hA]
  · simp [handle_refund_submission, hamt]

/-- C5 witness: two concrete successful runs differing only in reason and
payment-intent id. -/
theorem C5_witness :
    (handle_refund_submission "sk" ⟨some "U1", some "C1", some "pi_1", some "2500", some "duplicate charge"⟩
        (.ok ⟨"re_1", 2500, "usd", "succeeded", 1700000000⟩)).1.get? 3 =
      (handle_refund_submission "sk" ⟨some "U1", some "C1", some "pi_2", some "2500", some "other reason"⟩
        (.ok ⟨"re_1", 2500, "usd", "succeeded", 1700000000⟩)).1.get? 3 ∧
    (handle_refund_submission "sk" ⟨some "U1", some "C1", some "pi_1", some "2500", some "duplicate charge"⟩
        (.ok ⟨"re_1", 2500, "usd", "succeeded", 1700000000⟩)).1.get? 3 =
      some (.postMessage "C1"
        ("Refund of $" ++ fmt2 2500 ++ " has been processed for <@" ++ "U1" ++ ">")
        ["✅ Refund of *$" ++ fmt2 2500 ++ "* processed for <@" ++ "U1" ++ ">"]) :=
  C5_thm "sk" "U1" "C1" "pi_1" "pi_2" "duplicate charge" "other reason" "2500" 2500
    ⟨"re_1", 2500, "usd", "succeeded", 1700000000⟩
    ⟨"re_1", 2500, "usd", "succeeded", 1700000000⟩ rfl rfl

/-- C6: the claim fails on the code. The test-mode banner is hard-coded
into the slash-command receipt, so it appears even when the configured
processor credential is a production (live) key; and the modal-flow
success receipt for a refund in currency usd contains no uppercased
currency code at all (and no creation timestamp). -/
theorem C6_counterexample :
    testModeBanner ∈
      cmdReceiptBlocks "sk_live_prodkey" "ch_1" ⟨"re_1", 1999, "usd", "succeeded", 1700000000⟩ ∧
    (modalReceiptBlocks "sk_live_prodkey" "pi_1" "duplicate"
        ⟨"re_1", 1999, "usd", "succeeded", 1700000000⟩).all
      (fun b => !(strContains b "USD")) = true ∧
    (modalReceiptBlocks "sk_live_prodkey" "pi_1" "duplicate"
        ⟨"re_1", 1999, "usd", "succeeded", 1700000000⟩).all
      (fun b => !(strContains b "1700000000")) = true := by
  refine ⟨by decide, by decide, by decide⟩

/-- C6 (amended): the slash-command receipt renders, in order, a header,
the refund id, the amount as decimal currency with the uppercased currency
code, the uppercased status, the original charge id, the fixed reason
line, and the creation timestamp, followed by a settlement-timing
disclosure that embeds the test-mode banner unconditionally — independent
of the configured processor credential; the modal receipt renders, in
order, a header, the refund id, the amount without any currency code, the
titlecased status, the payment-intent id, the reason, and a banner-free
settlement disclosure, with no timestamp — also independent of the
credential. -/
theorem C6_amended_thm (key cid pi rsn : String) (r : Refund) :
    cmdReceiptBlocks key cid r =
      ["💰 Refund Receipt",
       "*Refund ID:*\n" ++ r.id,
       "*Amount:*\n$" ++ fmt2 r.amount ++ " " ++ pyUpper r.currency,
       "*Status:*\n" ++ pyUpper r.status,
       "*Original Charge:*\n" ++ cid,
       "*Reason:*\nRequested by customer",
       "*Timestamp:*\n<!date^" ++ Nat.repr r.created ++ "^\x7bdate_short\x7d \x7btime\x7d|" ++
         Nat.repr r.created ++ ">",
       testModeBanner] ∧
    cmdReceiptBlocks key cid r = cmdReceiptBlocks "sk_live_prodkey" cid r ∧
    testModeBanner ∈ cmdReceiptBlocks key cid r ∧
    modalReceiptBlocks key pi rsn r =
      ["✅ *Refund Processed Successfully*",
       "*Refund ID:*\n" ++ r.id,
       "*Amount:*\n$" ++ fmt2 r.amount,
       "*Status:*\n" ++ pyTitle r.status,
       "*Payment Intent:*\n" ++ pi,
       "*Reason:* " ++ rsn,
       "Refund will appear on your original payment method within 5-10 business days."] ∧
    modalReceiptBlocks key pi rsn r = modalReceiptBlocks "sk_live_prodkey" pi rsn r := by
  refine ⟨rfl, rfl, ?_, rfl, rfl⟩
  simp [cmdReceiptBlocks]

/-- C7: in the slash-command flow the final receipt (success or error)
replaces the processing placeholder in place (replace_original set); the
modal flow performs no response replacement at all — it emits no
`respond` effect — and instead posts exactly one direct message to the
requester plus, exactly when a channel context exists in the submission
body, one channel-wide announcement. -/
theorem C7_thm (key txt uid cid uid2 pi amt rsn c0 : String)
    (n : Int) (r : Refund) (e : Exc)
    (hne : pyStrip txt ≠ "") (hpre : strStartsWith (pyStrip txt) "ch_" = true)
    (hamt : pyInt amt = .ok n) :
    ((refund_command key ⟨some txt, some uid, some cid⟩ (.ok ()) (.ok r)).1.get? 4 =
      some (.respond ⟨.inChannel, true, cmdReceiptBlocks key (pyStrip txt) r⟩)) ∧
    ((refund_command key ⟨some txt, some uid, some cid⟩ (.error e) (.ok r)).1.get? 3 =
      some (.respond ⟨.ephemeral, true, [cmdErrorText (pyStrip txt) e]⟩)) ∧
    (∀ resp : SlackResponse,
      Effect.respond resp ∉
        (handle_refund_submission key ⟨some uid2, some c0, some pi, some amt, some rsn⟩
          (.ok r)).1) ∧
    (handle_refund_submission key ⟨some uid2, some c0, some pi, some amt, some rsn⟩ (.ok r) =
      ([.ack, .refundCreatePI pi n "requested_by_customer" uid2 rsn,
        .postMessage uid2 ("Refund processed: $" ++ fmt2 r.amount)
          (modalReceiptBlocks key pi rsn r),
        .postMessage c0
          ("Refund of $" ++ fmt2 r.amount ++ " has been processed for <@" ++ uid2 ++ ">")
          ["✅ Refund of *$" ++ fmt2 r.amount ++ "* processed for <@" ++ uid2 ++ ">"]], none)) ∧
    (handle_refund_submission key ⟨some uid2, none, some pi, some amt, some rsn⟩ (.ok r) =
      ([.ack, .refundCreatePI pi n "requested_by_customer" uid2 rsn,
        .postMessage uid2 ("Refund processed: $" ++ fmt2 r.amount)
          (modalReceiptBlocks key pi rsn r)], none)) := by
  refine ⟨?_, ?_, ?_, ?_, ?_⟩
  · simp [refund_command, hne, hpre]
  · simp [refund_command, hne, hpre]
  · intro resp
    simp [handle_refund_submission, hamt]
  · simp [handle_refund_submission, hamt]
  · simp [handle_refund_submission, hamt]

/-- C7 witness: the theorem applied at a concrete charge id, amount and
refund object. -/
theorem C7_witness :
    (refund_command "sk" ⟨some "ch_abc123", some "U1", some "C1"⟩ (.ok ())
        (.ok ⟨"re_1", 5000, "usd", "succeeded", 1700000000⟩)).1.get? 4 =
      some (.respond ⟨.inChannel, true,
        cmdReceiptBlocks "sk" (pyStrip "ch_abc123") ⟨"re_1", 5000, "usd", "succeeded", 1700000000⟩⟩) ∧
    handle_refund_submission "sk" ⟨some "U1", none, some "pi_1", some "2500", some "dup"⟩
        (.ok ⟨"re_1", 2500, "usd", "succeeded", 1700000000⟩) =
      ([.ack, .refundCreatePI "pi_1" 2500 "requested_by_customer" "U1" "dup",
        .postMessage "U1" ("Refund processed: $" ++ fmt2 2500)
          (modalReceiptBlocks "sk" "pi_1" "dup" ⟨"re_1", 2500, "usd", "succeeded", 1700000000⟩)],
       none) :=
  ⟨(C7_thm "sk" "ch_abc123" "U1" "C1" "U2" "pi_9" "77" "r" "C9" 77
      ⟨"re_1", 5000, "usd", "succeeded", 1700000000⟩ (.stripeError "x")
      (by decide) (by decide) rfl).1,
   (C7_thm "sk" "ch_abc123" "U1" "C1" "U1" "pi_1" "2500" "dup" "C9" 2500
      ⟨"re_1", 2500, "usd", "succeeded", 1700000000⟩ (.stripeError "x")
      (by decide) (by decide) rfl).2.2.2.2⟩

/-- Helper: the zero-padded fractional part always has exactly two
digits. -/
theorem pad2_length (m : Nat) (h : m < 100) : (pad2 m).length = 2 := by
  interval_cases m <;> rfl

/-- C8: a successful refund of 1999 minor units in currency usd renders the
amount field as $19.99 with currency USD; in general the rendered amount
is the minor-unit value divided by 100 with exactly a two-digit fractional
part, and the currency code is uppercased. -/
theorem C8_thm :
    fmt2 1999 = "19.99" ∧
    pyUpper "usd" = "USD" ∧
    (cmdReceiptBlocks "sk" "ch_1" ⟨"re_1", 1999, "usd", "succeeded", 1700000000⟩).get? 2 =
      some "*Amount:*\n$19.99 USD" ∧
    ∀ n : Nat,
      fmt2 n = Nat.repr (n / 100) ++ "." ++ pad2 (n % 100) ∧
      (pad2 (n % 100)).length = 2 :=
  ⟨rfl, rfl, rfl, fun n =>
    ⟨rfl, pad2_length (n % 100) (Nat.mod_lt n (by norm_num))⟩⟩

/-- C9: the claim fails on the code. The modal handler extracts the payload
fields before its try block, so a submission whose body lacks the user
record raises a `KeyError` that escapes `handle_refund_submission`
uncaught (after only the `ack`), instead of being converted into a
user-visible message. -/
theorem C9_counterexample :
    handle_refund_submission "sk" ⟨none, none, some "pi_1", some "2500", some "dup"⟩
        (.ok ⟨"re_1", 2500, "usd", "succeeded", 1700000000⟩) =
      ([.ack], some (.keyError "user")) := rfl

/-- C9 (amended): no exception ever propagates out of the `/refund` handler
(all its lookups and both Stripe calls are inside the try block), and none
propagates out of the modal handler provided the payload field extraction
succeeds — i.e. user id and the three input values are present; the
extraction itself, however, runs before the try block, so a missing field
raises an uncaught exception. -/
theorem C9_amended_thm :
    (∀ (key : String) (c : SlashCommand) (rr : Except Exc Unit) (cr : Except Exc Refund),
      (refund_command key c rr cr).2 = none) ∧
    (∀ (key uid pi amt rsn : String) (ch : Option String) (cr : Except Exc Refund),
      (handle_refund_submission key ⟨some uid, ch, some pi, some amt, some rsn⟩ cr).2 = none) := by
  constructor
  · intro key c rr cr
    rcases c with ⟨t, u, ci⟩
    by_cases h0 : pyStrip (t.getD "") = ""
    · simp [refund_command, h0]
    · by_cases h1 : strStartsWith (pyStrip (t.getD "")) "ch_"
      · rcases rr with e1 | u1
        · simp [refund_command, h0, h1]
        · rcases u with _ | uu
          · simp [refund_command, h0, h1]
          · rcases ci with _ | cc
            · simp [refund_command, h0, h1]
            · rcases cr with e2 | r <;> simp [refund_command, h0, h1]
      · simp [refund_command, h0, h1]
  · intro key uid pi amt rsn ch cr
    rcases hq : pyInt amt with e1 | n
    · simp [handle_refund_submission, hq]
    · rcases cr with e2 | r
      · simp [handle_refund_submission, hq]
      · rcases ch with _ | c0 <;> simp [handle_refund_submission, hq]

/-- C10: in the slash-command flow with a charge id the handler accepts, a
failed `Charge.retrieve` yields a trace that contains no `Refund.create`
call at all, and when the retrieve succeeds the trace issues the retrieve
strictly before the create. -/
theorem C10_thm (key txt uid cid : String) (cr : Except Exc Refund) (e : Exc)
    (hne : pyStrip txt ≠ "") (hpre : strStartsWith (pyStrip txt) "ch_" = true) :
    ((refund_command key ⟨some txt, some uid, some cid⟩ (.error e) cr).1 =
      [.ack, .respond ⟨.inChannel, false, [processingText]⟩,
       .chargeRetrieve (pyStrip txt),
       .respond ⟨.ephemeral, true, [cmdErrorText (pyStrip txt) e]⟩]) ∧
    (∀ a b c d, Effect.refundCreateCharge a b c d ∉
      (refund_command key ⟨some txt, some uid, some cid⟩ (.error e) cr).1) ∧
    ((refund_command key ⟨some txt, some uid, some cid⟩ (.ok ()) cr).1.take 4 =
      [.ack, .respond ⟨.inChannel, false, [processingText]⟩,
       .chargeRetrieve (pyStrip txt),
       .refundCreateCharge (pyStrip txt) "requested_by_customer" uid cid]) := by
  refine ⟨?_, ?_, ?_⟩
  · simp [refund_command, hne, hpre]
  · intro a b c d
    simp [refund_command, hne, hpre]
  · rcases cr with e2 | r <;> simp [refund_command, hne, hpre]

/-- C10 witness: the theorem applied at a concrete accepted charge id with
a failed and a successful retrieve. -/
theorem C10_witness :
    (refund_command "sk" ⟨some "ch_abc123", some "U1", some "C1"⟩
        (.error (.invalidRequestError "No such charge: ch_abc123"))
        (.ok ⟨"re_1", 5000, "usd", "succeeded", 1700000000⟩)).1 =
      [.ack, .respond ⟨.inChannel, false, [processingText]⟩,
       .chargeRetrieve (pyStrip "ch_abc123"),
       .respond ⟨.ephemeral, true,
         [cmdErrorText (pyStrip "ch_abc123") (.invalidRequestError "No such charge: ch_abc123")]⟩] ∧
    (refund_command "sk" ⟨some "ch_abc123", some "U1", some "C1"⟩ (.ok ())
        (.ok ⟨"re_1", 5000, "usd", "succeeded", 1700000000⟩)).1.take 4 =
      [.ack, .respond ⟨.inChannel, false, [processingText]⟩,
       .chargeRetrieve (pyStrip "ch_abc123"),
       .refundCreateCharge (pyStrip "ch_abc123") "requested_by_customer" "U1" "C1"] :=
  ⟨(C10_thm "sk" "ch_abc123" "U1" "C1"
      (.ok ⟨"re_1", 5000, "usd", "succeeded", 1700000000⟩)
      (.invalidRequestError "No such charge: ch_abc123") (by decide) (by decide)).1,
   (C10_thm "sk" "ch_abc123" "U1" "C1"
      (.ok ⟨"re_1", 5000, "usd", "succeeded", 1700000000⟩)
      (.invalidRequestError "No such charge: ch_abc123") (by decide) (by decide)).2.2⟩

end SlackBot
